import Mathlib

/-
  Verification development for the flappy-bird repository (src/game.js).

  The core simulation is shallowly embedded: JavaScript numbers are modelled
  as rationals (all arithmetic performed by the game loop stays on dyadic
  rationals of tiny denominator, where IEEE-754 doubles are exact), counters
  as naturals, and the JavaScript remainder operator as Int.tmod (truncated
  remainder, matching the sign behaviour of the percent operator).  The call
  to Math.random() inside spawnPipe is modelled by passing the drawn random
  number (a rational in [0,1)) as an explicit argument to spawnPipe and to
  update.

  Omitted from the state: the field bird.rot (a presentation-only tilt value
  computed as min(pi/4, vy/10), which involves the irrational pi and is read
  by nothing in the game logic), and the asset/rendering layer.  The per-pipe
  forEach loop of update both tests collision (which only writes gameState)
  and scoring (which only writes score and the passed flag of the pipe under
  scrutiny, reading only bird.x and that pipe); its iterations are mutually
  independent, so it is rendered as separate any / countP / map passes over
  the same pipe list.
-/

namespace Flappy

/-- Canvas width (src/game.js line 8). -/
def WIDTH : ℚ := 288

/-- Canvas height (src/game.js line 9). -/
def HEIGHT : ℚ := 512

/-- Height of the ground strip (src/game.js line 10). -/
def GROUND_HEIGHT : ℚ := 112

/-- Gravity added to the vertical velocity each playing tick, 0.25 (line 11). -/
def GRAVITY : ℚ := 1/4

/-- Jump impulse velocity, -4.5 (src/game.js line 12). -/
def JUMP : ℚ := -9/2

/-- Vertical gap between the pipe halves (src/game.js line 13). -/
def PIPE_GAP : ℚ := 100

/-- Horizontal spawn cadence, compared against the tick counter pipeSpawnTimer
(src/game.js line 14). -/
def PIPE_DISTANCE : ℕ := 140

/-- Pipe sprite width (src/game.js line 15). -/
def PIPE_WIDTH : ℚ := 52

/-- BASE_Y = HEIGHT - GROUND_HEIGHT, the y coordinate of the ground (line 19). -/
def BASE_Y : ℚ := HEIGHT - GROUND_HEIGHT

/-- The three game states of src/game.js line 89 (Splash = idle, Game = playing,
Over = ended). -/
inductive GState where
  | Splash
  | Game
  | Over
deriving DecidableEq

/-- The bird record created in resetGame (src/game.js lines 100-107); the
presentation-only rot field is omitted, see the header comment. -/
structure Bird where
  x : ℚ
  y : ℚ
  vy : ℚ
  frame : ℕ
  radius : ℚ
deriving DecidableEq

/-- A pipe pair as pushed by spawnPipe (src/game.js lines 116-120).  The passed
flag is absent at creation in the source (undefined, hence falsy) and is first
written by the scoring pass; it is modelled as a Bool that is false at creation. -/
structure Pipe where
  x : ℚ
  top : ℚ
  bottom : ℚ
  passed : Bool
deriving DecidableEq

/-- The aggregate mutable state of the game: gameState, score, pipes and the
variables bird, baseX, frame, pipeSpawnTimer of src/game.js lines 89-94. -/
structure Session where
  gameState : GState
  score : ℕ
  pipes : List Pipe
  bird : Bird
  baseX : ℤ
  frame : ℕ
  pipeSpawnTimer : ℕ
deriving DecidableEq

/-- The bird spawn pose of resetGame. -/
def birdInit : Bird := { x := 60, y := HEIGHT/2, vy := 0, frame := 0, radius := 12 }

/-- resetGame (src/game.js lines 97-111): resets everything except gameState. -/
def resetGame (s : Session) : Session :=
  { gameState := s.gameState, score := 0, pipes := [], bird := birdInit,
    baseX := 0, frame := 0, pipeSpawnTimer := 0 }

/-- The state right after asset loading: resetGame has run and gameState is Splash. -/
def initState : Session :=
  { gameState := GState.Splash, score := 0, pipes := [], bird := birdInit,
    baseX := 0, frame := 0, pipeSpawnTimer := 0 }

/-- spawnPipe (src/game.js lines 114-121), with the Math.random() draw r passed in:
topY = floor(r * (HEIGHT - GROUND_HEIGHT - PIPE_GAP - 80)) + 40. -/
def spawnPipe (r : ℚ) : Pipe :=
  { x := WIDTH,
    top := ((Int.floor (r * (HEIGHT - GROUND_HEIGHT - PIPE_GAP - 80)) : ℤ) : ℚ) + 40,
    bottom := ((Int.floor (r * (HEIGHT - GROUND_HEIGHT - PIPE_GAP - 80)) : ℤ) : ℚ) + 40 + PIPE_GAP,
    passed := false }

/-- Bird physics of update (src/game.js lines 208-213): gravity, position,
animation frame.  Frame numbers follow the source comments: 1 = downflap,
0 = upflap, 2 = midflap. -/
def physicsBird (b : Bird) : Bird :=
  let vy2 := b.vy + GRAVITY
  let y2 := b.y + vy2
  let fr : ℕ := if vy2 ≥ JUMP then 1 else if vy2 < 0 then 0 else 2
  { b with vy := vy2, y := y2, frame := fr }

/-- The pipe list after the spawn step of update (src/game.js lines 218-222):
the timer is incremented and, when it exceeds PIPE_DISTANCE, one pipe is
appended. -/
def spawnedPipes (r : ℚ) (s : Session) : List Pipe :=
  if s.pipeSpawnTimer + 1 > PIPE_DISTANCE then s.pipes ++ [spawnPipe r] else s.pipes

/-- The spawn timer after the spawn step of update (reset to 0 on spawn). -/
def nextTimer (s : Session) : ℕ :=
  if s.pipeSpawnTimer + 1 > PIPE_DISTANCE then 0 else s.pipeSpawnTimer + 1

/-- Per-tick leftward pipe motion (src/game.js line 223). -/
def moveLeft (p : Pipe) : Pipe := { p with x := p.x - 2 }

/-- Retirement of the frontmost pipe once fully off screen
(src/game.js line 225): only the head of the list is examined. -/
def retire : List Pipe → List Pipe
  | [] => []
  | p :: ps => if p.x < -PIPE_WIDTH then ps else p :: ps

/-- The pipe list seen by the collision/scoring forEach of update: spawned,
moved left, and with the front pipe possibly retired. -/
def pipesMid (r : ℚ) (s : Session) : List Pipe :=
  retire ((spawnedPipes r s).map moveLeft)

/-- Collision test of one pipe against the bird (src/game.js lines 230-232). -/
def hitCond (b : Bird) (p : Pipe) : Bool :=
  decide (b.x + b.radius > p.x) && decide (b.x - b.radius < p.x + PIPE_WIDTH) &&
    (decide (b.y - b.radius < p.top) || decide (b.y + b.radius > p.bottom))

/-- Scoring trigger of one pipe (src/game.js line 239): the pipe is not yet
passed and the bird x coordinate exceeds the pipe trailing edge. -/
def scoreCond (b : Bird) (p : Pipe) : Bool :=
  !p.passed && decide (b.x > p.x + PIPE_WIDTH)

/-- The write performed by the scoring branch on the pipe under scrutiny. -/
def markPassed (b : Bird) (p : Pipe) : Pipe :=
  if scoreCond b p then { p with passed := true } else p

/-- One tick: the update function of src/game.js lines 204-256, with the
Math.random() draw r for a potential spawn passed in.  While playing:
bird physics, pipe spawn/move/retire, collision and scoring over all pipes,
floor clamp; in every state: frame increment and ground scroll
baseX = (baseX - 2) % WIDTH with the JavaScript truncated remainder. -/
def update (r : ℚ) (s : Session) : Session :=
  if s.gameState = GState.Game then
    let b := physicsBird s.bird
    let mid := pipesMid r s
    let gs := if mid.any (hitCond b) then GState.Over else s.gameState
    let sc := s.score + mid.countP (scoreCond b)
    let pipes2 := mid.map (markPassed b)
    let b2 := if b.y + b.radius > BASE_Y then { b with y := BASE_Y - b.radius } else b
    let gs2 := if b.y + b.radius > BASE_Y then GState.Over else gs
    { gameState := gs2, score := sc, pipes := pipes2, bird := b2,
      baseX := (s.baseX - 2).tmod 288, frame := s.frame + 1, pipeSpawnTimer := nextTimer s }
  else
    { s with frame := s.frame + 1, baseX := (s.baseX - 2).tmod 288 }

/-- The activate input: the flap function of src/game.js lines 277-291. -/
def flap (s : Session) : Session :=
  match s.gameState with
  | GState.Splash =>
      let s2 := resetGame s
      { s2 with gameState := GState.Game, bird := { s2.bird with vy := JUMP } }
  | GState.Game =>
      { s with bird := { s.bird with vy := JUMP } }
  | GState.Over =>
      { resetGame s with gameState := GState.Splash }

/-- States reachable from the freshly loaded game by ticks (with any random
draw) and activate inputs. -/
inductive Reachable : Session → Prop where
  | init : Reachable initState
  | tick (r : ℚ) (s : Session) : Reachable s → Reachable (update r s)
  | input (s : Session) : Reachable s → Reachable (flap s)

/-- The per-pipe position invariant behind claims about pipe x coordinates:
every pipe x is WIDTH minus a positive even offset, because the pipe was
spawned at WIDTH and has been shifted left by 2 at least once (during its own
spawn tick, where spawning precedes the movement pass). -/
def goodX (p : Pipe) : Prop := ∃ k : ℕ, 1 ≤ k ∧ p.x = WIDTH - 2 * k

/-- The pipe-list invariant: positions as in goodX, and the list strictly
sorted by ascending x. -/
def pipesInv (s : Session) : Prop :=
  (∀ p ∈ s.pipes, goodX p) ∧ List.Chain' (fun p q : Pipe => p.x < q.x) s.pipes

/-- Spec-level description of the per-tick evolution of the pipe x coordinates:
after a possible spawn at the right edge WIDTH, every x drops by the scroll
amount 2, and the front element alone is dropped exactly when it lies strictly
beyond -PIPE_WIDTH, i.e. when its trailing edge x + PIPE_WIDTH has moved fully
past the left boundary. -/
def spawnXs (r : ℚ) (s : Session) : List ℚ :=
  if s.pipeSpawnTimer + 1 > PIPE_DISTANCE then s.pipes.map Pipe.x ++ [WIDTH]
  else s.pipes.map Pipe.x

/-- Front-only retirement on bare x coordinates, mirror of retire. -/
def retireXs : List ℚ → List ℚ
  | [] => []
  | v :: vs => if v < -PIPE_WIDTH then vs else v :: vs

/-- A playing state used to exhibit the scoring trigger: one pipe whose
trailing edge the bird leading edge (x + radius) has passed after this tick,
while the bird center x has not. -/
def c3state : Session :=
  { gameState := GState.Game, score := 0,
    pipes := [{ x := 20, top := 150, bottom := 250, passed := false }],
    bird := { x := 60, y := 200, vy := 0, frame := 0, radius := 12 },
    baseX := 0, frame := 0, pipeSpawnTimer := 0 }

/-- A playing state whose bird reaches vy = -2 after one tick: negative updated
velocity but above the JUMP threshold. -/
def c5state : Session :=
  { gameState := GState.Game, score := 0, pipes := [],
    bird := { x := 60, y := 200, vy := -9/4, frame := 0, radius := 12 },
    baseX := 0, frame := 0, pipeSpawnTimer := 0 }

/-- A playing state over the floor threshold after one tick of physics. -/
def c2state : Session :=
  { gameState := GState.Game, score := 0, pipes := [],
    bird := { x := 60, y := 395, vy := 0, frame := 0, radius := 12 },
    baseX := 0, frame := 0, pipeSpawnTimer := 0 }

/-- A playing state whose spawn timer fires on the next tick. -/
def c6wstate : Session :=
  { gameState := GState.Game, score := 0, pipes := [],
    bird := { x := 60, y := 200, vy := 0, frame := 0, radius := 12 },
    baseX := 0, frame := 0, pipeSpawnTimer := 140 }

/-- A reachable playing state holding a pipe: the activate input is repeated
before every tick, which keeps the bird far above the floor, so the spawner
fires on the 141st playing tick and the spawned pipe ends that tick at x = 286. -/
def aliveRun : Session := ((fun s => update 0 (flap s))^[141]) initState

set_option maxRecDepth 20000

unseal Rat.add Rat.sub Rat.mul Rat.inv Rat.ofScientific

lemma markPassed_x (b : Bird) (p : Pipe) : (markPassed b p).x = p.x := by
  unfold markPassed
  split <;> rfl

lemma moveLeft_x (p : Pipe) : (moveLeft p).x = p.x - 2 := rfl

lemma retire_cons (a : Pipe) (l : List Pipe) :
    retire (a :: l) = if a.x < -PIPE_WIDTH then l else a :: l := rfl

lemma retire_eq (l : List Pipe) : retire l = l ∨ retire l = l.tail := by
  cases l with
  | nil => exact Or.inl rfl
  | cons p ps =>
      rw [retire_cons]
      split
      · exact Or.inr rfl
      · exact Or.inl rfl

lemma mem_of_mem_retire {q : Pipe} {l : List Pipe} (hq : q ∈ retire l) : q ∈ l := by
  rcases retire_eq l with he | he <;> rw [he] at hq
  · exact hq
  · exact List.mem_of_mem_tail hq

lemma mem_retire_of_mem_tail {q a : Pipe} {l : List Pipe} (hq : q ∈ l) :
    q ∈ retire (a :: l) := by
  rw [retire_cons]
  split
  · exact hq
  · exact List.mem_cons_of_mem a hq

lemma mem_retire_last (l : List Pipe) (q : Pipe) (h : ¬ q.x < -PIPE_WIDTH) :
    q ∈ retire (l ++ [q]) := by
  cases l with
  | nil =>
      rw [List.nil_append]
      show q ∈ retire (q :: [])
      rw [retire_cons, if_neg h]
      exact List.mem_singleton_self q
  | cons a l =>
      rw [List.cons_append]
      exact mem_retire_of_mem_tail (List.mem_append_right l (List.mem_singleton_self q))

lemma update_pipes_game (r : ℚ) (s : Session) (h : s.gameState = GState.Game) :
    (update r s).pipes = (pipesMid r s).map (markPassed (physicsBird s.bird)) := by
  unfold update
  rw [if_pos h]

lemma update_pipes_not_game (r : ℚ) (s : Session) (h : ¬s.gameState = GState.Game) :
    (update r s).pipes = s.pipes := by
  unfold update
  rw [if_neg h]

lemma update_score_game (r : ℚ) (s : Session) (h : s.gameState = GState.Game) :
    (update r s).score = s.score + (pipesMid r s).countP (scoreCond (physicsBird s.bird)) := by
  unfold update
  rw [if_pos h]

lemma update_timer_game (r : ℚ) (s : Session) (h : s.gameState = GState.Game) :
    (update r s).pipeSpawnTimer = nextTimer s := by
  unfold update
  rw [if_pos h]

lemma flap_pipes (s : Session) : (flap s).pipes = [] ∨ (flap s).pipes = s.pipes := by
  unfold flap
  cases s.gameState
  · exact Or.inl rfl
  · exact Or.inr rfl
  · exact Or.inl rfl

lemma pipesInv_init : pipesInv initState := by
  constructor
  · intro p hp
    simp [initState] at hp
  · simp [initState]

lemma pipesInv_flap (s : Session) (h : pipesInv s) : pipesInv (flap s) := by
  rcases flap_pipes s with he | he
  · constructor
    · intro p hp
      rw [he] at hp
      simp at hp
    · rw [he]
      exact List.chain'_nil
  · constructor
    · intro p hp
      rw [he] at hp
      exact h.1 p hp
    · rw [he]
      exact h.2

lemma goodX_lt_width {p : Pipe} (h : goodX p) : p.x < WIDTH := by
  obtain ⟨k, hk, hx⟩ := h
  have : (1 : ℚ) ≤ (k : ℚ) := by exact_mod_cast hk
  rw [hx]
  linarith

lemma spawned_goodX (r : ℚ) (s : Session) (h : ∀ p ∈ s.pipes, goodX p) :
    ∀ q ∈ (spawnedPipes r s).map moveLeft, goodX q := by
  intro q hq
  obtain ⟨q0, hq0, rfl⟩ := List.mem_map.mp hq
  unfold spawnedPipes at hq0
  split at hq0
  · rcases List.mem_append.mp hq0 with hmem | hmem
    · obtain ⟨k, hk, hx⟩ := h q0 hmem
      refine ⟨k + 1, le_add_right hk, ?_⟩
      rw [moveLeft_x, hx]
      push_cast
      ring
    · rw [List.mem_singleton.mp hmem]
      refine ⟨1, le_refl 1, ?_⟩
      rw [moveLeft_x]
      have hw : (spawnPipe r).x = WIDTH := rfl
      rw [hw]
      push_cast
      ring
  · obtain ⟨k, hk, hx⟩ := h q0 hq0
    refine ⟨k + 1, le_add_right hk, ?_⟩
    rw [moveLeft_x, hx]
    push_cast
    ring

lemma spawned_chain (r : ℚ) (s : Session) (h : pipesInv s) :
    List.Chain' (fun p q : Pipe => p.x < q.x) ((spawnedPipes r s).map moveLeft) := by
  rw [List.chain'_map]
  have hbase : List.Chain' (fun a b : Pipe => (moveLeft a).x < (moveLeft b).x) s.pipes := by
    refine h.2.imp ?_
    intro p q hpq
    rw [moveLeft_x, moveLeft_x]
    linarith
  unfold spawnedPipes
  split
  · apply List.chain'_append.mpr
    refine ⟨hbase, List.chain'_singleton _, ?_⟩
    intro x hx y hy
    rw [List.head?_cons, Option.mem_some_iff] at hy
    subst hy
    have hxmem : x ∈ s.pipes := List.mem_of_mem_getLast? hx
    have hlt := goodX_lt_width (h.1 x hxmem)
    have hw : (spawnPipe r).x = WIDTH := rfl
    rw [moveLeft_x, moveLeft_x, hw]
    linarith
  · exact hbase

lemma pipesInv_update (r : ℚ) (s : Session) (h : pipesInv s) : pipesInv (update r s) := by
  by_cases hg : s.gameState = GState.Game
  · rw [pipesInv, update_pipes_game r s hg]
    constructor
    · intro p hp
      obtain ⟨q, hq, rfl⟩ := List.mem_map.mp hp
      have hq2 : q ∈ (spawnedPipes r s).map moveLeft := mem_of_mem_retire hq
      obtain ⟨k, hk, hx⟩ := spawned_goodX r s h.1 q hq2
      exact ⟨k, hk, by rw [markPassed_x]; exact hx⟩
    · rw [List.chain'_map]
      have hchain : List.Chain' (fun p q : Pipe => p.x < q.x)
          (retire ((spawnedPipes r s).map moveLeft)) := by
        rcases retire_eq ((spawnedPipes r s).map moveLeft) with he | he <;> rw [he]
        · exact spawned_chain r s h
        · exact (spawned_chain r s h).tail
      refine hchain.imp ?_
      intro p q hpq
      rw [markPassed_x, markPassed_x]
      exact hpq
  · rw [pipesInv, update_pipes_not_game r s hg]
    exact h

lemma reach_pipesInv (s : Session) (h : Reachable s) : pipesInv s := by
  induction h with
  | init => exact pipesInv_init
  | tick r s _ ih => exact pipesInv_update r s ih
  | input s _ ih => exact pipesInv_flap s ih

lemma spawned_map_x (r : ℚ) (s : Session) :
    (spawnedPipes r s).map Pipe.x = spawnXs r s := by
  unfold spawnedPipes spawnXs
  split
  · rw [List.map_append]
    rfl
  · rfl

lemma retire_map_x (l : List Pipe) : (retire l).map Pipe.x = retireXs (l.map Pipe.x) := by
  cases l with
  | nil => rfl
  | cons p ps =>
      rw [retire_cons, List.map_cons]
      show _ = if p.x < -PIPE_WIDTH then ps.map Pipe.x else p.x :: ps.map Pipe.x
      split
      · rfl
      · rfl

lemma reach_aliveRun_aux (n : ℕ) :
    Reachable (((fun s => update 0 (flap s))^[n]) initState) := by
  induction n with
  | zero => exact Reachable.init
  | succ n ih =>
      rw [Function.iterate_succ_apply']
      exact Reachable.tick 0 _ (Reachable.input _ ih)

lemma reach_aliveRun : Reachable aliveRun := reach_aliveRun_aux 141

/-- Claim C1: on every tick processed while the state is Playing, the physics
step first sets the new velocity to the old velocity plus GRAVITY (0.25) and
then adds the already-incremented velocity to the vertical position; the
velocity stored after the whole tick equals the old velocity plus GRAVITY
exactly, so across consecutive Playing ticks with no activate input the
velocity grows by GRAVITY per tick. -/
theorem C1_gravity_step (r : ℚ) (s : Session) (h : s.gameState = GState.Game) :
    (physicsBird s.bird).vy = s.bird.vy + GRAVITY ∧
    (physicsBird s.bird).y = s.bird.y + (physicsBird s.bird).vy ∧
    (update r s).bird.vy = s.bird.vy + GRAVITY := by
  refine ⟨rfl, rfl, ?_⟩
  simp only [update, h, reduceIte]
  split <;> rfl

/-- Witness for C1 at the concrete Playing state flap initState with draw 0. -/
theorem C1_witness :
    (physicsBird (flap initState).bird).vy = (flap initState).bird.vy + GRAVITY ∧
    (physicsBird (flap initState).bird).y
      = (flap initState).bird.y + (physicsBird (flap initState).bird).vy ∧
    (update 0 (flap initState)).bird.vy = (flap initState).bird.vy + GRAVITY :=
  C1_gravity_step 0 (flap initState) rfl

/-- Claim C2: on a Playing tick in which the post-physics bird position
satisfies y + radius > BASE_Y (floor at 400 = HEIGHT - GROUND_HEIGHT), the
tick ends in state Over with y clamped to exactly BASE_Y - radius. -/
theorem C2_floor_clamp (r : ℚ) (s : Session) (h : s.gameState = GState.Game)
    (hfall : s.bird.y + (s.bird.vy + GRAVITY) + s.bird.radius > BASE_Y) :
    (update r s).gameState = GState.Over ∧
    (update r s).bird.y = BASE_Y - s.bird.radius := by
  have hc : (physicsBird s.bird).y + (physicsBird s.bird).radius > BASE_Y := hfall
  simp only [update, h, reduceIte]
  rw [if_pos hc, if_pos hc]
  exact ⟨rfl, rfl⟩

/-- Witness for C2 at the concrete state c2state (y = 395, vy = 0, radius 12). -/
theorem C2_witness :
    (update 0 c2state).gameState = GState.Over ∧
    (update 0 c2state).bird.y = BASE_Y - c2state.bird.radius :=
  C2_floor_clamp 0 c2state rfl (by decide)

/-- Claim C3 counterexample: c3state holds one unpassed pipe; after one tick
the pipe stands at x = 18, the bird leading edge 60 + 12 = 72 exceeds the
trailing edge 18 + 52 = 70 for the first time (before the tick the trailing
edge was 72, not passed), yet the source leaves the passed flag false and the
score at 0, because line 239 compares the bird center x (60), not the leading
edge, against the trailing edge.  The claim, which predicates the transition
on the leading edge, is therefore false at this input. -/
theorem C3_counterexample :
    (update 0 c3state).pipes = [{ x := 18, top := 150, bottom := 250, passed := false }] ∧
    (update 0 c3state).score = 0 ∧
    c3state.bird.x + c3state.bird.radius > 18 + PIPE_WIDTH ∧
    ¬ c3state.bird.x > 18 + PIPE_WIDTH := by decide

/-- Claim C3 as amended: the scoring trigger compares the bird center x (not
the leading edge) with the pipe trailing edge.  On a Playing tick, the score
grows by exactly the number of pipes whose trigger fires, each such pipe has
its passed flag set to true, every other pipe is kept unchanged, an
already-passed pipe can never fire again, and the trigger fires exactly on
unpassed pipes whose trailing edge lies strictly left of the bird center. -/
theorem C3_amended_scoring (r : ℚ) (s : Session) (h : s.gameState = GState.Game) :
    (update r s).score = s.score + (pipesMid r s).countP (scoreCond (physicsBird s.bird)) ∧
    (∀ p ∈ pipesMid r s, scoreCond (physicsBird s.bird) p = true →
        ({ p with passed := true } : Pipe) ∈ (update r s).pipes) ∧
    (∀ p ∈ pipesMid r s, scoreCond (physicsBird s.bird) p = false → p ∈ (update r s).pipes) ∧
    (∀ p ∈ pipesMid r s, p.passed = true → scoreCond (physicsBird s.bird) p = false) ∧
    (∀ p : Pipe, scoreCond (physicsBird s.bird) p = true ↔
        p.passed = false ∧ s.bird.x > p.x + PIPE_WIDTH) := by
  refine ⟨update_score_game r s h, ?_, ?_, ?_, ?_⟩
  · intro p hp hc
    rw [update_pipes_game r s h]
    have he : markPassed (physicsBird s.bird) p = { p with passed := true } := by
      unfold markPassed
      rw [if_pos hc]
    rw [← he]
    exact List.mem_map_of_mem _ hp
  · intro p hp hc
    rw [update_pipes_game r s h]
    have he : markPassed (physicsBird s.bird) p = p := by
      unfold markPassed
      rw [if_neg]
      simp [hc]
    rw [← he]
    exact List.mem_map_of_mem _ hp
  · intro p _ hpassed
    unfold scoreCond
    rw [hpassed]
    rfl
  · intro p
    have hx : (physicsBird s.bird).x = s.bird.x := rfl
    simp [scoreCond, hx]

/-- Witness for C3 (amended) at the concrete state c3state with draw 0. -/
theorem C3_witness :
    (update 0 c3state).score
      = c3state.score + (pipesMid 0 c3state).countP (scoreCond (physicsBird c3state.bird)) ∧
    (∀ p ∈ pipesMid 0 c3state, p.passed = true →
        scoreCond (physicsBird c3state.bird) p = false) :=
  ⟨(C3_amended_scoring 0 c3state rfl).1,
   (C3_amended_scoring 0 c3state rfl).2.2.2.1⟩

/-- Claim C4: an activate input in state Splash (idle) or Game (playing) sets
the vertical velocity to exactly JUMP, overwriting any prior value; while
playing, two activate inputs in immediate succession each set the velocity to
JUMP and neither resets the score or the pipe sequence. -/
theorem C4_jump_impulse (s : Session) :
    (s.gameState = GState.Splash ∨ s.gameState = GState.Game → (flap s).bird.vy = JUMP) ∧
    (s.gameState = GState.Game →
      (flap s).gameState = GState.Game ∧ (flap s).score = s.score ∧
      (flap s).pipes = s.pipes ∧
      (flap (flap s)).bird.vy = JUMP ∧ (flap (flap s)).score = s.score ∧
      (flap (flap s)).pipes = s.pipes) := by
  constructor
  · rintro (h | h) <;> simp [flap, h]
  · intro h
    simp [flap, h]

/-- Witness for C4 at the concrete Playing state flap initState. -/
theorem C4_witness :
    (flap (flap initState)).bird.vy = JUMP ∧
    (flap (flap initState)).gameState = GState.Game ∧
    (flap (flap initState)).score = (flap initState).score ∧
    (flap (flap initState)).pipes = (flap initState).pipes ∧
    (flap (flap (flap initState))).bird.vy = JUMP ∧
    (flap (flap (flap initState))).score = (flap initState).score ∧
    (flap (flap (flap initState))).pipes = (flap initState).pipes := by
  obtain ⟨h1, h2⟩ := C4_jump_impulse (flap initState)
  obtain ⟨a, b, c, d, e, f⟩ := h2 rfl
  exact ⟨h1 (Or.inr rfl), a, b, c, d, e, f⟩

/-- Claim C5 counterexample: in c5state the updated velocity is -2, which is
negative, so the claim assigns the rising phase (upflap, frame 0); the source
tests vy >= JUMP first (line 211) and assigns the falling-fast phase
(downflap, frame 1) instead.  The claim order of the branches is refuted. -/
theorem C5_counterexample :
    (update 0 c5state).bird.vy < 0 ∧ (update 0 c5state).bird.frame = 1 := by decide

/-- Claim C5 as amended: after the physics update of a Playing tick the
animation phase is the falling-fast phase (frame 1) exactly when the updated
velocity is at least JUMP, the rising phase (frame 0) exactly when it is below
JUMP, and the neutral phase (frame 2) never occurs, because the vy >= JUMP
test comes first in the source. -/
theorem C5_amended_phase (r : ℚ) (s : Session) (h : s.gameState = GState.Game) :
    ((update r s).bird.frame = 1 ↔ (update r s).bird.vy ≥ JUMP) ∧
    ((update r s).bird.frame = 0 ↔ (update r s).bird.vy < JUMP) ∧
    (update r s).bird.frame ≠ 2 := by
  have hvy : (update r s).bird.vy = (physicsBird s.bird).vy := by
    simp only [update, h, reduceIte]
    split <;> rfl
  have hfr : (update r s).bird.frame = (physicsBird s.bird).frame := by
    simp only [update, h, reduceIte]
    split <;> rfl
  rw [hvy, hfr]
  simp only [physicsBird]
  rcases le_or_lt JUMP (s.bird.vy + GRAVITY) with hge | hlt
  · rw [if_pos hge]
    refine ⟨⟨fun _ => hge, fun _ => rfl⟩,
      ⟨fun hfg => absurd hfg one_ne_zero, fun hc => absurd hge (not_le.mpr hc)⟩, by simp⟩
  · rw [if_neg (not_le.mpr hlt)]
    have hneg : s.bird.vy + GRAVITY < 0 := lt_trans hlt (by norm_num [JUMP])
    rw [if_pos hneg]
    exact ⟨⟨fun hfg => absurd hfg zero_ne_one, fun hge => absurd hge (not_le.mpr hlt)⟩,
      ⟨fun _ => hlt, fun _ => rfl⟩, by simp⟩

/-- Witness for C5 (amended) at the concrete Playing state flap initState. -/
theorem C5_witness :
    ((update 0 (flap initState)).bird.frame = 1 ↔ (update 0 (flap initState)).bird.vy ≥ JUMP) ∧
    ((update 0 (flap initState)).bird.frame = 0 ↔ (update 0 (flap initState)).bird.vy < JUMP) ∧
    (update 0 (flap initState)).bird.frame ≠ 2 :=
  C5_amended_phase 0 (flap initState) rfl

/-- Claim C6 counterexample: starting from the idle state, one activate input
followed by exactly PIPE_DISTANCE = 140 ticks leaves the pipe list empty, not
holding one scrolled pipe plus one freshly spawned pipe: the spawner requires
the incremented timer to strictly exceed 140, so the earliest spawn is the
141st playing tick, and the unassisted bird has already hit the floor (ending
the game) around tick 55. -/
theorem C6_counterexample :
    (((update 0)^[140]) (flap initState)).pipes = [] := by decide

/-- Claim C6 as amended: after one activate input and exactly PIPE_DISTANCE
ticks no pipe exists and the game has already ended by floor collision;
in general, on a Playing tick the spawner fires (equivalently, the spawn timer
resets to 0) exactly when the incremented timer strictly exceeds
PIPE_DISTANCE, and the pipe spawned by such a tick ends the tick at
x = WIDTH - 2, already shifted left by the scroll amount. -/
theorem C6_amended_spawn_timing :
    ((((update 0)^[140]) (flap initState)).pipes = [] ∧
     (((update 0)^[140]) (flap initState)).gameState = GState.Over) ∧
    ∀ (r : ℚ) (s : Session), s.gameState = GState.Game →
      ((update r s).pipeSpawnTimer = 0 ↔ s.pipeSpawnTimer + 1 > PIPE_DISTANCE) ∧
      (s.pipeSpawnTimer + 1 > PIPE_DISTANCE →
        ∃ q ∈ (update r s).pipes, q.x = WIDTH - 2) := by
  refine ⟨⟨by decide, by decide⟩, ?_⟩
  intro r s h
  constructor
  · rw [update_timer_game r s h]
    unfold nextTimer
    split
    · next hc => exact ⟨fun _ => hc, fun _ => rfl⟩
    · next hc => exact ⟨fun habs => absurd habs (Nat.succ_ne_zero _), fun hcc => absurd hcc hc⟩
  · intro hc
    rw [update_pipes_game r s h]
    refine ⟨markPassed (physicsBird s.bird) (moveLeft (spawnPipe r)), ?_, ?_⟩
    · apply List.mem_map_of_mem
      unfold pipesMid
      have hsp : spawnedPipes r s = s.pipes ++ [spawnPipe r] := by
        unfold spawnedPipes
        rw [if_pos hc]
      rw [hsp, List.map_append, List.map_singleton]
      apply mem_retire_last
      rw [moveLeft_x]
      have hw : (spawnPipe r).x = WIDTH := rfl
      rw [hw]
      norm_num [WIDTH, PIPE_WIDTH]
    · rw [markPassed_x, moveLeft_x]
      have hw : (spawnPipe r).x = WIDTH := rfl
      rw [hw]

/-- Witness for C6 (amended) at the concrete state c6wstate (timer 140). -/
theorem C6_witness :
    ((update 0 c6wstate).pipeSpawnTimer = 0 ↔ c6wstate.pipeSpawnTimer + 1 > PIPE_DISTANCE) ∧
    ∃ q ∈ (update 0 c6wstate).pipes, q.x = WIDTH - 2 :=
  ⟨(C6_amended_spawn_timing.2 0 c6wstate rfl).1,
   (C6_amended_spawn_timing.2 0 c6wstate rfl).2 (by decide)⟩

/-- Claim C7: for every random draw r in [0,1), the spawned pipe sits at
x = WIDTH, its gap bottom is its gap top plus PIPE_GAP, and its gap top is an
integer in [40, 260), where 260 = HEIGHT - GROUND_HEIGHT - PIPE_GAP - 80 + 40. -/
theorem C7_spawn_bounds (r : ℚ) (h0 : 0 ≤ r) (h1 : r < 1) :
    (spawnPipe r).x = WIDTH ∧
    (spawnPipe r).bottom = (spawnPipe r).top + PIPE_GAP ∧
    40 ≤ (spawnPipe r).top ∧ (spawnPipe r).top < 260 ∧
    ∃ n : ℤ, (spawnPipe r).top = (n : ℚ) := by
  have hconst : HEIGHT - GROUND_HEIGHT - PIPE_GAP - 80 = (220 : ℚ) := by
    norm_num [HEIGHT, GROUND_HEIGHT, PIPE_GAP]
  have hnn : (0 : ℤ) ≤ Int.floor (r * (HEIGHT - GROUND_HEIGHT - PIPE_GAP - 80)) := by
    apply Int.floor_nonneg.mpr
    rw [hconst]
    positivity
  have hub : Int.floor (r * (HEIGHT - GROUND_HEIGHT - PIPE_GAP - 80)) < 220 := by
    apply Int.floor_lt.mpr
    rw [hconst]
    push_cast
    nlinarith
  refine ⟨rfl, rfl, ?_, ?_, ?_⟩
  · simp only [spawnPipe]
    have hcast : (0 : ℚ) ≤ ((Int.floor (r * (HEIGHT - GROUND_HEIGHT - PIPE_GAP - 80)) : ℤ) : ℚ) := by
      exact_mod_cast hnn
    linarith
  · simp only [spawnPipe]
    have hcast : ((Int.floor (r * (HEIGHT - GROUND_HEIGHT - PIPE_GAP - 80)) : ℤ) : ℚ) < 220 := by
      exact_mod_cast hub
    linarith
  · refine ⟨Int.floor (r * (HEIGHT - GROUND_HEIGHT - PIPE_GAP - 80)) + 40, ?_⟩
    simp only [spawnPipe]
    push_cast
    ring

/-- Witness for C7 at the concrete draw one half. -/
theorem C7_witness :
    (0 : ℚ) ≤ 1/2 ∧ (1/2 : ℚ) < 1 ∧
    ((spawnPipe (1/2)).x = WIDTH ∧
     (spawnPipe (1/2)).bottom = (spawnPipe (1/2)).top + PIPE_GAP ∧
     40 ≤ (spawnPipe (1/2)).top ∧ (spawnPipe (1/2)).top < 260 ∧
     ∃ n : ℤ, (spawnPipe (1/2)).top = (n : ℚ)) :=
  ⟨by norm_num, by norm_num, C7_spawn_bounds (1/2) (by norm_num) (by norm_num)⟩

/-- Claim C8: in every reachable state the pipe list is strictly sorted by
ascending x, and on a Playing tick the pipe x coordinates evolve by the spawn
step followed by a uniform shift left by 2, with exactly the front element
dropped when it lies strictly beyond -PIPE_WIDTH (trailing edge fully past
the left boundary) and no other removal. -/
theorem C8_pipe_order (s : Session) (hs : Reachable s) :
    List.Chain' (fun p q : Pipe => p.x < q.x) s.pipes ∧
    ∀ r : ℚ, s.gameState = GState.Game →
      (update r s).pipes.map Pipe.x = retireXs ((spawnXs r s).map (fun v => v - 2)) := by
  refine ⟨(reach_pipesInv s hs).2, ?_⟩
  intro r h
  rw [update_pipes_game r s h]
  have h1 : ((pipesMid r s).map (markPassed (physicsBird s.bird))).map Pipe.x
      = (pipesMid r s).map Pipe.x := by
    rw [List.map_map]
    apply List.map_congr_left
    intro p _
    exact markPassed_x (physicsBird s.bird) p
  rw [h1]
  unfold pipesMid
  rw [retire_map_x, List.map_map]
  have h2 : (spawnedPipes r s).map (Pipe.x ∘ moveLeft) = (spawnXs r s).map (fun v => v - 2) := by
    rw [← spawned_map_x, List.map_map]
    rfl
  rw [h2]

/-- Witness for C8 at the reachable Playing state flap initState with draw 0. -/
theorem C8_witness :
    List.Chain' (fun p q : Pipe => p.x < q.x) (flap initState).pipes ∧
    (update 0 (flap initState)).pipes.map Pipe.x
      = retireXs ((spawnXs 0 (flap initState)).map (fun v => v - 2)) :=
  ⟨(C8_pipe_order (flap initState) (Reachable.input initState Reachable.init)).1,
   (C8_pipe_order (flap initState) (Reachable.input initState Reachable.init)).2 0 rfl⟩

/-- Claim C9: a tick received in state Splash (idle) or Over (ended) leaves
the bird, the pipes, the score, the spawn timer and the game state untouched;
only the frame counter increments and the ground offset advances by 2,
wrapping by the truncated remainder modulo WIDTH = 288. -/
theorem C9_idle_tick (r : ℚ) (s : Session)
    (h : s.gameState = GState.Splash ∨ s.gameState = GState.Over) :
    update r s = { s with frame := s.frame + 1, baseX := (s.baseX - 2).tmod 288 } := by
  rcases h with h | h <;> simp [update, h]

/-- Witness for C9 at the concrete idle state initState with draw 0. -/
theorem C9_witness :
    update 0 initState
      = { initState with frame := initState.frame + 1,
                         baseX := (initState.baseX - 2).tmod 288 } :=
  C9_idle_tick 0 initState (Or.inl rfl)

/-- Claim C10: in every reachable state no pipe sits at the spawn position
WIDTH; every pipe x equals WIDTH - 2k for some integer k at least 1, because
a pipe spawned during a tick is shifted left by 2 within that same tick
(spawning precedes the movement pass). -/
theorem C10_no_pipe_at_spawn_x (s : Session) (hs : Reachable s) :
    ∀ p ∈ s.pipes, p.x ≠ WIDTH ∧ ∃ k : ℕ, 1 ≤ k ∧ p.x = WIDTH - 2 * k := by
  intro p hp
  obtain ⟨k, hk, hx⟩ := (reach_pipesInv s hs).1 p hp
  refine ⟨?_, k, hk, hx⟩
  have h1 : (1 : ℚ) ≤ (k : ℚ) := by exact_mod_cast hk
  rw [hx]
  intro hcontra
  have h2 : (2 : ℚ) * (k : ℚ) = 0 := by linarith
  linarith

/-- Witness for C10 at the reachable state aliveRun, which holds a pipe at 286. -/
theorem C10_witness :
    (⟨286, 40, 140, false⟩ : Pipe) ∈ aliveRun.pipes ∧
    ((⟨286, 40, 140, false⟩ : Pipe).x ≠ WIDTH ∧
      ∃ k : ℕ, 1 ≤ k ∧ (⟨286, 40, 140, false⟩ : Pipe).x = WIDTH - 2 * k) :=
  ⟨by decide,
   C10_no_pipe_at_spawn_x aliveRun reach_aliveRun ⟨286, 40, 140, false⟩ (by decide)⟩

end Flappy
